import Mathlib

/-!
# Verification of the biga-analysis ETF decline reporter

Shallow embedding of `src/main.rs`.  The program fetches closing-price
series for a fixed ETF ticker list, computes percentage declines over a
lookback window of `day` trading days, and prints a sorted report.

Modelling conventions:
* Rust `f64` prices are modelled by `ℚ` (exact arithmetic; every price and
  percentage appearing in the program's contract is a finite decimal).
* Rust slice indexing `v[i]` panics when the index is out of bounds, and
  `usize` subtraction `day - 1` underflows (panics in debug builds, wraps to
  an astronomically large index — hence an out-of-bounds panic — in release
  builds) when `day = 0`.  Both are modelled by `getIdx`, which computes the
  index over `ℤ` and returns `none` (= panic) when the index is negative or
  out of bounds.  A function returning `none` models an aborted (panicking)
  run.
* The HTTP layer is external.  Its outcome is modelled as
  `Except String (Nat × Option (List (Option ℚ)))`: `Except.error e` is a
  transport-level failure; an `Except.ok (status, body)` carries the HTTP
  status and the result of `serde_json::from_str::<Vec<SinaKLine>>` followed
  by `close.parse::<f64>()` on each record — `body = none` models a body
  that fails to parse as a sequence of bar records, and an inner `none`
  models a `close` field that fails to parse as a number.
* `stdout` and `stderr` are modelled as lists of printed lines.
-/

/-- The hardcoded ticker list (`ETF_CODES` in `main.rs`). -/
def ETF_CODES : List String :=
  ["513520", "513350", "513870", "512800", "515000", "513030", "516810", "518880", "513500",
   "512660", "510050", "512000", "513730", "512670", "512400", "513080", "517090", "513800",
   "515750", "520580", "501090", "515710", "516970", "520830", "515220", "513110", "561360"]

/-- Rust `code.starts_with('5')`: true iff the first character of `code` is `'5'`. -/
def startsWithChar (code : String) (c : Char) : Bool :=
  match code.data with
  | [] => false
  | d :: _ => d = c

/-- Function `to_sina_code` from `main.rs`: prepend `"sh"` when the ticker starts with
the digit `'5'`, and `"sz"` otherwise. -/
def to_sina_code (code : String) : String :=
  let pfx := if startsWithChar code '5' then "sh" else "sz"
  pfx ++ code

/-- Function `calculate` from `main.rs`: percentage change from `older` to `newer`,
clamped to `0` when `older ≤ 0`. -/
def calculate (older newer : ℚ) : ℚ :=
  if older > 0 then (newer - older) / older * 100 else 0

/-- Rust slice indexing with the index computed over `ℤ`: `none` models the
out-of-bounds / underflow panic. -/
def getIdx (l : List ℚ) (i : Int) : Option ℚ :=
  if h : 0 ≤ i ∧ i.toNat < l.length then some (l.get ⟨i.toNat, h.2⟩) else none

/-- The `close`-collection loop of `fetch_etf_kline`: parse every record's
`close` field in order; the first unparsable one (`none`) makes the whole
fetch yield an empty series. -/
def collectCloses : List (Option ℚ) → Option (List ℚ)
  | [] => some []
  | some c :: rest => (collectCloses rest).map (fun l => c :: l)
  | none :: _ => none

/-- Function `fetch_etf_kline` from `main.rs`, with the transport outcome as input.
A transport failure is propagated as `Except.error`; a response whose body
fails to parse (outer `none`), or containing an unparsable `close` field
(inner `none`), yields `Except.ok` with an empty price series. -/
def fetch_etf_kline (transport : Except String (Nat × Option (List (Option ℚ)))) :
    Except String (List ℚ × Option Nat) :=
  match transport with
  | Except.error e => Except.error e
  | Except.ok (status, body) =>
    match body with
    | none => Except.ok ([], some status)
    | some items =>
      match collectCloses items with
      | none => Except.ok ([], some status)
      | some closes => Except.ok (closes, some status)

/-- One report row: `(code, today_decline_rate, half_day_decline_rate)`. -/
structure Row where
  code : String
  rate : ℚ
  halfRate : ℚ
deriving DecidableEq

/-- Source line `let half_day_idx = if day > 1 { day / 2 } else { 0 };`. -/
def halfDayIdx (day : Nat) : Nat :=
  if day > 1 then day / 2 else 0

/-- The half-window figure of the report loop:
`if half_day_idx < prices.len() && day > 1 { calculate(price_pre, prices[day - 1 - half_day_idx]) } else { 0.0 }`.
`none` models the index panic (unreachable when the guard holds, see below). -/
def halfDayRate (day : Nat) (prices : List ℚ) (price_pre : ℚ) : Option ℚ :=
  if halfDayIdx day < prices.length ∧ day > 1 then
    (getIdx prices ((day : Int) - 1 - (halfDayIdx day : Int))).map (calculate price_pre)
  else
    some 0

/-- The body of the report loop for one ticker once prices are in hand
(`main.rs` lines 93–111).  Result `none` models an index panic;
`some (row?, log?)` gives the contributed report row (if any) and the
`stderr` diagnostic (if any). -/
def processPrices (day : Nat) (code : String) (prices : List ℚ) :
    Option (Option Row × Option String) :=
  if prices.length ≥ day then
    match getIdx prices 0, getIdx prices ((day : Int) - 1) with
    | some price_pre, some price_today =>
      if price_today < price_pre then
        match halfDayRate day prices price_pre with
        | some h => some (some ⟨code, calculate price_pre price_today, h⟩, none)
        | none => none
      else
        some (none, none)
    | _, _ => none
  else
    some (none, some ("Not enough data for " ++ code ++ ": got " ++
      toString prices.length ++ " days"))

/-- One iteration of the main loop over `ETF_CODES`: dispatch on the fetch
outcome exactly as `main.rs` lines 86–115 do. -/
def processTicker (day : Nat) (code : String)
    (outcome : Except String (List ℚ × Option Nat)) :
    Option (Option Row × Option String) :=
  match outcome with
  | Except.error e =>
    some (none, some ("Failed to fetch data for " ++ code ++ ": " ++ e ++
      " (No HTTP status available)"))
  | Except.ok (prices, statusOpt) =>
    match statusOpt with
    | some status =>
      if status ≠ 200 then
        some (none, some ("HTTP " ++ toString status ++ " for code: " ++ code))
      else
        processPrices day code prices
    | none => processPrices day code prices

/-- The whole fetch loop: fold `processTicker` over the ticker list, collecting
report rows and `stderr` diagnostics in order.  `none` models a panic
aborting the run. -/
def processAll (day : Nat)
    (tickers : List (String × Except String (List ℚ × Option Nat))) :
    Option (List Row × List String) :=
  match tickers with
  | [] => some ([], [])
  | (code, o) :: rest =>
    match processTicker day code o with
    | none => none
    | some (rowOpt, logOpt) =>
      match processAll day rest with
      | none => none
      | some (rows, logs) => some (rowOpt.toList ++ rows, logOpt.toList ++ logs)

/-- Source line `results.sort_by(|a, b| a.1.partial_cmp(&b.1).unwrap())`: a stable sort,
ascending by the signed full-window rate.  (`partial_cmp` on `f64` is `none`
only for NaN; over `ℚ` the order is total, so the `unwrap` never panics.) -/
def sortRows (rows : List Row) : List Row :=
  rows.mergeSort (fun a b => decide (a.rate ≤ b.rate))

/-- Round half-up to an integer; used only to model `{:.2}` formatting. -/
def ratRound2 (q : ℚ) : Int :=
  let s : ℚ := q * 100 + 1 / 2
  Int.fdiv s.num (s.den : Int)

/-- Format `{:.2}` rendering of a rate. -/
def fmt2 (q : ℚ) : String :=
  let n := ratRound2 q
  let sgn := if n < 0 then "-" else ""
  let m := n.natAbs
  sgn ++ toString (m / 100) ++ "." ++ (if m % 100 < 10 then "0" else "") ++
    toString (m % 100)

/-- One printed result line (`main.rs` lines 127–130). -/
def renderRow (day : Nat) (r : Row) : String :=
  "Code: " ++ r.code ++ " | Rate(Today/" ++ toString day ++ " days ago): " ++
    fmt2 r.rate ++ "% | Rate(" ++ toString (day / 2) ++ " days ago/" ++
    toString day ++ " days ago): " ++ fmt2 r.halfRate ++ "%"

/-- The printing phase (`main.rs` lines 118–132) as the list of `stdout`
lines: header, then either the `"No ETF data"` message or one line per
sorted result. -/
def renderReport (day : Nat) (rows : List Row) : List String :=
  let header := ["", " ETF Decline over " ++ toString day ++ " days:",
    "-----------------------------------------"]
  if rows.isEmpty then
    header ++ ["No ETF data"]
  else
    header ++ (sortRows rows).map (renderRow day)

/-- End-to-end report: process every ticker then render; `none` models a
panicking run. -/
def runReport (day : Nat)
    (tickers : List (String × Except String (List ℚ × Option Nat))) :
    Option (List String × List String) :=
  match processAll day tickers with
  | none => none
  | some (rows, logs) => some (renderReport day rows, logs)

/-- The numeric value of a decimal digit character, `none` for non-digits. -/
def digitVal (c : Char) : Option Nat :=
  if '0' ≤ c ∧ c ≤ '9' then some (c.toNat - ('0').toNat) else none

/-- Rust `s.parse::<usize>().ok()`: a non-empty all-digit string parses to the
denoted number, anything else (modulo an optional leading sign, which no
claim exercises) fails. -/
def parseUsize (s : String) : Option Nat :=
  match s.data with
  | [] => none
  | ds => ds.foldl (fun acc c => acc.bind (fun n => (digitVal c).map (fun d => n * 10 + d)))
      (some 0)

/-- CLI parsing of the lookback window (`main.rs` lines 76–79):
`args.get(1).and_then(|s| s.parse::<usize>().ok()).unwrap_or(5)`. -/
def parseDay (arg : Option String) : Nat :=
  (arg.bind (fun s => parseUsize s)).getD 5

/-- Does `pat` occur at the start of `hay`? (used to state properties of the
printed lines). -/
def beginsWith : List Char → List Char → Bool
  | _, [] => true
  | [], _ :: _ => false
  | a :: hay, b :: pat => a = b && beginsWith hay pat

/-- Does `pat` occur contiguously anywhere inside `hay`? -/
def containsSeq (hay pat : List Char) : Bool :=
  match hay with
  | [] => beginsWith [] pat
  | _ :: rest => beginsWith hay pat || containsSeq rest pat

/-! ## Helper lemmas -/

theorem getIdx_eq_some (l : List ℚ) (i : Int) (h0 : 0 ≤ i) (hl : i.toNat < l.length) :
    getIdx l i = some (l.get ⟨i.toNat, hl⟩) := by
  rw [getIdx, dif_pos ⟨h0, hl⟩]

theorem getIdx_isSome_of_lt (l : List ℚ) (i : Int) (h0 : 0 ≤ i)
    (hl : i.toNat < l.length) : (getIdx l i).isSome := by
  rw [getIdx_eq_some l i h0 hl]
  rfl

theorem collectCloses_has_none (pre post : List (Option ℚ)) :
    collectCloses (pre ++ none :: post) = none := by
  induction pre with
  | nil => rfl
  | cons a pre ih =>
    cases a with
    | none => rfl
    | some c => simp [collectCloses, ih]

/-! ## Claims -/

/-- C1: `calculate` returns `((newer - older) / older) * 100` when `older > 0`
and `0` when `older ≤ 0`; in particular `calculate 100 90 = -10`,
`calculate 100 110 = 10`, and `calculate 0 50 = 0`. -/
theorem calculate_spec (older newer : ℚ) :
    (older > 0 → calculate older newer = (newer - older) / older * 100) ∧
    (older ≤ 0 → calculate older newer = 0) ∧
    calculate 100 90 = -10 ∧ calculate 100 110 = 10 ∧ calculate 0 50 = 0 := by
  refine ⟨fun h => by simp [calculate, h], fun h => by simp [calculate, not_lt.mpr h],
    ?_, ?_, ?_⟩ <;> norm_num [calculate]

/-- Witness for C1 at concrete inputs. -/
theorem calculate_spec_witness :
    calculate 100 90 = (90 - 100) / 100 * 100 ∧ calculate 0 50 = 0 :=
  ⟨(calculate_spec 100 90).1 (by norm_num), (calculate_spec 0 50).2.1 le_rfl⟩

/-- C7: `to_sina_code` is total (it is a Lean function) and prepends `"sh"`
when the first character is `'5'`, `"sz"` otherwise; in particular
`"002001" ↦ "sz002001"` and `"513520" ↦ "sh513520"`. -/
theorem to_sina_code_spec (code : String) (h : code ≠ "") :
    (code.data.head? = some '5' → to_sina_code code = "sh" ++ code) ∧
    (code.data.head? ≠ some '5' → to_sina_code code = "sz" ++ code) ∧
    to_sina_code "002001" = "sz002001" ∧ to_sina_code "513520" = "sh513520" := by
  refine ⟨?_, ?_, by decide, by decide⟩
  · intro hh
    cases hd : code.data with
    | nil => rw [hd] at hh; exact absurd hh (by simp)
    | cons a as =>
      rw [hd] at hh
      simp only [List.head?_cons, Option.some.injEq] at hh
      simp [to_sina_code, startsWithChar, hd, hh]
  · intro hh
    cases hd : code.data with
    | nil => simp [to_sina_code, startsWithChar, hd]
    | cons a as =>
      rw [hd] at hh
      have ha : a ≠ '5' := fun he => hh (by simp [he])
      simp [to_sina_code, startsWithChar, hd, ha]

/-- Witness for C7 at a non-`'5'` input. -/
theorem to_sina_code_spec_witness : to_sina_code "002001" = "sz002001" :=
  (to_sina_code_spec "002001" (by decide)).2.2.1

/-- C5: a ticker whose series is shorter than `day` is skipped with a
diagnostic naming the ticker and the actual length, and contributes no
report row. -/
theorem insufficient_data_skip (day : Nat) (code : String) (prices : List ℚ)
    (hshort : prices.length < day) :
    processTicker day code (Except.ok (prices, some 200)) =
      some (none, some ("Not enough data for " ++ code ++ ": got " ++
        toString prices.length ++ " days")) := by
  simp [processTicker, processPrices, not_le.mpr hshort]

/-- Witness for C5: a series of length 3 with `day = 5`. -/
theorem insufficient_data_skip_witness :
    processTicker 5 "513520" (Except.ok ([100, 99, 98], some 200)) =
      some (none, some "Not enough data for 513520: got 3 days") := by
  have h := insufficient_data_skip 5 "513520" [100, 99, 98] (by norm_num)
  simpa using h

/-- C8 counterexample: the claim's consequent "the ticker is skipped and the
run is not aborted" fails in the `day = 0` configuration (reachable, since
the CLI parses `"0"`): a body with an unparsable `close` yields the
successful empty series, which then passes the `0 ≥ 0` length guard, reaches
the out-of-bounds access `prices[0]`, and the panic aborts the run instead
of skipping the ticker. -/
theorem parse_failure_abort_counterexample :
    parseDay (some "0") = 0 ∧
    fetch_etf_kline (Except.ok (200, some [some 100, none])) = Except.ok ([], some 200) ∧
    processTicker 0 "513350" (Except.ok ([], some 200)) = none ∧
    processAll 0 [("513350", Except.ok ([], some 200))] = none := by
  refine ⟨by decide, rfl, ?_, ?_⟩ <;>
    norm_num [processAll, processTicker, processPrices, getIdx]

/-- C8 (amended): a body that fails to parse as a record sequence, or that
contains an unparsable `close` field, yields a successful fetch result with
an empty price series (not an error); and provided `day ≥ 1`, the main loop
then skips that ticker — no report row, a diagnostic is logged — without
aborting the run. -/
theorem fetch_parse_failure (day st : Nat) (code : String)
    (body : Option (List (Option ℚ)))
    (hday : 1 ≤ day)
    (h : body = none ∨ ∃ pre post, body = some (pre ++ none :: post)) :
    fetch_etf_kline (Except.ok (st, body)) = Except.ok ([], some st) ∧
    (∃ log, processTicker day code (Except.ok ([], some st)) = some (none, some log)) := by
  constructor
  · rcases h with rfl | ⟨pre, post, rfl⟩
    · rfl
    · simp [fetch_etf_kline, collectCloses_has_none pre post]
  · by_cases hst : st = 200
    · subst hst
      refine ⟨"Not enough data for " ++ code ++ ": got " ++
        toString (List.length ([] : List ℚ)) ++ " days", ?_⟩
      simp [processTicker, processPrices, Nat.not_le.mpr hday]
    · exact ⟨"HTTP " ++ toString st ++ " for code: " ++ code,
        by simp [processTicker, hst]⟩

/-- Witness for C8: one good record followed by an unparsable `close`, with
`day = 5`; the fetch succeeds with an empty series and the ticker is skipped
with a diagnostic. -/
theorem fetch_parse_failure_witness :
    fetch_etf_kline (Except.ok (200, some [some 1, none])) = Except.ok ([], some 200) ∧
    (∃ log, processTicker 5 "513520" (Except.ok ([], some 200)) = some (none, some log)) :=
  fetch_parse_failure 5 200 "513520" (some [some 1, none]) (by norm_num)
    (Or.inr ⟨[some 1], [], rfl⟩)

/-- C2: the half-window figure uses the price at index `day - 1 - day / 2`
when `day > 1` and is fixed at `0` when `day ≤ 1`; on the series
`[100, 98, 95, 90, 85]` with `day = 5` the report row is
`(-15, -5)` (signed mode) and the half-window price is `series[2] = 95`. -/
theorem half_window_spec (day : Nat) (prices : List ℚ) (p0 ph : ℚ) :
    (day ≤ 1 → halfDayRate day prices p0 = some 0) ∧
    (2 ≤ day → day ≤ prices.length →
      getIdx prices ((day : Int) - 1 - ((day / 2 : Nat) : Int)) = some ph →
      halfDayRate day prices p0 = some (calculate p0 ph)) ∧
    processPrices 5 "513520" [100, 98, 95, 90, 85] =
      some (some ⟨"513520", -15, -5⟩, none) ∧
    getIdx [100, 98, 95, 90, 85] ((5 : Int) - 1 - ((5 / 2 : Nat) : Int)) = some 95 ∧
    calculate 100 85 = -15 ∧ calculate 100 95 = -5 := by
  refine ⟨?_, ?_, ?_, ?_, ?_, ?_⟩
  · intro h1
    have hn : ¬ day > 1 := by omega
    simp [halfDayRate, hn]
  · intro h2 hlen hidx
    have hgt : day > 1 := by omega
    have hhi : halfDayIdx day = day / 2 := by simp [halfDayIdx, hgt]
    have hlt : halfDayIdx day < prices.length := by rw [hhi]; omega
    rw [halfDayRate, if_pos ⟨hlt, hgt⟩, hhi, hidx]
    rfl
  · norm_num [processPrices, getIdx, halfDayRate, halfDayIdx, calculate, List.get]
  · norm_num [getIdx, List.get]
  · norm_num [calculate]
  · norm_num [calculate]

/-- Witness for C2: the half-window figure of the end-to-end scenario. -/
theorem half_window_spec_witness :
    halfDayRate 5 [100, 98, 95, 90, 85] 100 = some (calculate 100 95) :=
  (half_window_spec 5 [100, 98, 95, 90, 85] 100 95).2.1 (by norm_num) (by norm_num)
    (by norm_num [getIdx, List.get])

/-- C3: a ticker whose window-end price is at least its window-start price
contributes no report row, for any HTTP status outcome. -/
theorem no_decline_no_row (day : Nat) (code : String) (prices : List ℚ)
    (stOpt : Option Nat) (p0 pt : ℚ)
    (h0 : getIdx prices 0 = some p0)
    (ht : getIdx prices ((day : Int) - 1) = some pt)
    (hlen : prices.length ≥ day)
    (hge : p0 ≤ pt) :
    ∃ l, processTicker day code (Except.ok (prices, stOpt)) = some (none, l) := by
  have hpp : processPrices day code prices = some (none, none) := by
    simp [processPrices, hlen, h0, ht, not_lt.mpr hge]
  cases stOpt with
  | none => exact ⟨none, by simp [processTicker, hpp]⟩
  | some st =>
    by_cases hst : st = 200
    · subst hst
      exact ⟨none, by simp [processTicker, hpp]⟩
    · exact ⟨some ("HTTP " ++ toString st ++ " for code: " ++ code),
        by simp [processTicker, hst]⟩

/-- Witness for C3: a flat series never yields a row. -/
theorem no_decline_no_row_witness :
    ∃ l, processTicker 5 "513520"
      (Except.ok ([100, 100, 100, 100, 100], some 200)) = some (none, l) :=
  no_decline_no_row 5 "513520" [100, 100, 100, 100, 100] (some 200) 100 100
    (by norm_num [getIdx, List.get]) (by norm_num [getIdx, List.get])
    (by norm_num) le_rfl

theorem processPrices_ne_none (day : Nat) (code : String) (prices : List ℚ)
    (hday : 1 ≤ day) : processPrices day code prices ≠ none := by
  by_cases hlen : prices.length ≥ day
  · have h0 : (getIdx prices 0).isSome :=
      getIdx_isSome_of_lt prices 0 le_rfl (by omega)
    have ht : (getIdx prices ((day : Int) - 1)).isSome :=
      getIdx_isSome_of_lt prices _ (by omega) (by omega)
    obtain ⟨p0, hp0⟩ := Option.isSome_iff_exists.mp h0
    obtain ⟨pt, hpt⟩ := Option.isSome_iff_exists.mp ht
    have hhr : (halfDayRate day prices p0).isSome := by
      rw [halfDayRate]
      split
      · rename_i hcond
        have hhi : halfDayIdx day = day / 2 := by simp [halfDayIdx, hcond.2]
        have hk := hcond.1
        have hgt := hcond.2
        have hh : (getIdx prices ((day : Int) - 1 - (halfDayIdx day : Int))).isSome :=
          getIdx_isSome_of_lt prices _ (by omega) (by omega)
        obtain ⟨hv, hhv⟩ := Option.isSome_iff_exists.mp hh
        simp [hhv]
      · rfl
    obtain ⟨hv, hhv⟩ := Option.isSome_iff_exists.mp hhr
    by_cases hlt : pt < p0
    · simp [processPrices, hlen, hp0, hpt, hlt, hhv]
    · simp [processPrices, hlen, hp0, hpt, hlt]
  · simp [processPrices, hlen]

theorem processTicker_ne_none (day : Nat) (hday : 1 ≤ day) (code : String)
    (o : Except String (List ℚ × Option Nat)) :
    processTicker day code o ≠ none := by
  cases o with
  | error e => simp [processTicker]
  | ok pr =>
    obtain ⟨prices, stOpt⟩ := pr
    cases stOpt with
    | none => simpa [processTicker] using processPrices_ne_none day code prices hday
    | some st =>
      by_cases hst : st = 200
      · subst hst
        simpa [processTicker] using processPrices_ne_none day code prices hday
      · simp [processTicker, hst]

/-- C10: under `1 ≤ day ≤ prices.length` the three index accesses of the
report loop are in bounds and the panic branch is unreachable; the
hypothesis `1 ≤ day` is required: the CLI parses `"0"` as a valid day, and
with `day = 0` an empty series reaches the out-of-bounds access
`series[0]` and panics. -/
theorem index_safety (day : Nat) (code : String) (prices : List ℚ)
    (h1 : 1 ≤ day) (h2 : day ≤ prices.length) :
    ((getIdx prices 0).isSome ∧
      (getIdx prices ((day : Int) - 1)).isSome ∧
      (1 < day → (getIdx prices ((day : Int) - 1 - ((day / 2 : Nat) : Int))).isSome) ∧
      processPrices day code prices ≠ none) ∧
    (parseDay (some "0") = 0 ∧
      processPrices 0 code ([] : List ℚ) = none ∧
      getIdx ([] : List ℚ) 0 = none) := by
  refine ⟨⟨?_, ?_, ?_, processPrices_ne_none day code prices h1⟩, by decide, ?_, by decide⟩
  · exact getIdx_isSome_of_lt prices 0 le_rfl (by omega)
  · exact getIdx_isSome_of_lt prices _ (by omega) (by omega)
  · intro hgt
    exact getIdx_isSome_of_lt prices _ (by omega) (by omega)
  · norm_num [processPrices, getIdx]

/-- Witness for C10 on the end-to-end series. -/
theorem index_safety_witness :
    ((getIdx [100, 98, 95, 90, 85] 0).isSome ∧
      (getIdx [100, 98, 95, 90, 85] (((5 : Nat) : Int) - 1)).isSome ∧
      (1 < 5 → (getIdx [100, 98, 95, 90, 85]
        (((5 : Nat) : Int) - 1 - ((5 / 2 : Nat) : Int))).isSome) ∧
      processPrices 5 "513520" [100, 98, 95, 90, 85] ≠ none) ∧
    (parseDay (some "0") = 0 ∧
      processPrices 0 "513520" ([] : List ℚ) = none ∧
      getIdx ([] : List ℚ) 0 = none) :=
  index_safety 5 "513520" [100, 98, 95, 90, 85] (by norm_num) (by norm_num)

/-- C4: the printed rows are the input rows sorted ascending by the signed
full-window rate: adjacent printed rows are ordered, the sorted list is a
permutation of the collected rows, and the most-severe decline is first. -/
theorem report_rows_sorted (day : Nat) (rows : List Row) :
    (sortRows rows).Pairwise (fun a b => a.rate ≤ b.rate) ∧
    (sortRows rows).Perm rows ∧
    (rows ≠ [] → renderReport day rows =
      ["", " ETF Decline over " ++ toString day ++ " days:",
        "-----------------------------------------"] ++
        (sortRows rows).map (renderRow day)) ∧
    (∀ x ∈ sortRows rows, ∀ y, (sortRows rows).head? = some y → y.rate ≤ x.rate) := by
  have hpair : (sortRows rows).Pairwise (fun a b => a.rate ≤ b.rate) := by
    have h := @List.sorted_mergeSort Row (fun a b => decide (a.rate ≤ b.rate))
      (fun a b c hab hbc => by
        simp only [decide_eq_true_eq] at *
        exact le_trans hab hbc)
      (fun a b => by simpa using le_total a.rate b.rate) rows
    exact h.imp (fun hab => by simpa using hab)
  refine ⟨hpair, List.mergeSort_perm rows _, ?_, ?_⟩
  · intro hne
    have he : rows.isEmpty = false := by
      cases rows with
      | nil => exact absurd rfl hne
      | cons a l => rfl
    simp [renderReport, he, sortRows]
  · intro x hx y hy
    cases hs : sortRows rows with
    | nil => rw [hs] at hx; exact absurd hx (by simp)
    | cons z t =>
      rw [hs] at hx hy
      simp only [List.head?_cons, Option.some.injEq] at hy
      subst hy
      rw [hs] at hpair
      rcases List.mem_cons.mp hx with rfl | hxt
      · exact le_rfl
      · exact (List.pairwise_cons.mp hpair).1 x hxt

/-- Witness for C4 on a two-row report. -/
theorem report_rows_sorted_witness :
    renderReport 5 [⟨"513520", -3, 0⟩, ⟨"512800", -15, -5⟩] =
      ["", " ETF Decline over " ++ toString (5 : Nat) ++ " days:",
        "-----------------------------------------"] ++
        (sortRows [⟨"513520", -3, 0⟩, ⟨"512800", -15, -5⟩]).map (renderRow 5) :=
  (report_rows_sorted 5 [⟨"513520", -3, 0⟩, ⟨"512800", -15, -5⟩]).2.2.1 (by simp)

/-- C6 counterexample: on a run in which the single ticker does not decline,
zero tickers qualify, yet no `stdout` line contains the literal substring
`"no results"` — the empty-result message is the literal `"No ETF data"`. -/
theorem no_results_literal_counterexample :
    runReport 5 [("513520", Except.ok ([100, 100, 100, 100, 100], some 200))] =
      some (renderReport 5 [], []) ∧
    (renderReport 5 []).all
      (fun l => !(containsSeq l.data ("no results").data)) = true := by
  constructor
  · norm_num [runReport, processAll, processTicker, processPrices, getIdx, List.get]
  · decide

/-- C6 (amended): when zero tickers qualify, `stdout` is exactly the header
followed by the literal `"No ETF data"` line — so it contains that message
and no per-ticker result lines. -/
theorem empty_report_message (day : Nat)
    (tickers : List (String × Except String (List ℚ × Option Nat)))
    (logs : List String)
    (h : processAll day tickers = some ([], logs)) :
    runReport day tickers =
      some (["", " ETF Decline over " ++ toString day ++ " days:",
        "-----------------------------------------", "No ETF data"], logs) ∧
    "No ETF data" ∈ renderReport day [] := by
  refine ⟨?_, by simp [renderReport]⟩
  simp [runReport, h, renderReport]

/-- Witness for C6 (amended) on a concrete non-declining run. -/
theorem empty_report_message_witness :
    runReport 5 [("513520", Except.ok ([100, 100, 100, 100, 100], some 200))] =
      some (["", " ETF Decline over " ++ toString (5 : Nat) ++ " days:",
        "-----------------------------------------", "No ETF data"], []) ∧
    "No ETF data" ∈ renderReport 5 [] :=
  empty_report_message 5 [("513520", Except.ok ([100, 100, 100, 100, 100], some 200))] []
    (by norm_num [processAll, processTicker, processPrices, getIdx, List.get])

theorem processAll_insert_failure (day : Nat) (code e : String)
    (pre post : List (String × Except String (List ℚ × Option Nat))) :
    ∀ rows logs, processAll day (pre ++ post) = some (rows, logs) →
      ∃ logs2, processAll day (pre ++ (code, Except.error e) :: post) =
          some (rows, logs2) ∧
        ("Failed to fetch data for " ++ code ++ ": " ++ e ++
          " (No HTTP status available)") ∈ logs2 := by
  induction pre with
  | nil =>
    intro rows logs h
    refine ⟨("Failed to fetch data for " ++ code ++ ": " ++ e ++
      " (No HTTP status available)") :: logs, ?_, List.mem_cons_self _ _⟩
    simp only [List.nil_append] at h ⊢
    simp [processAll, processTicker, h]
  | cons hd tl ih =>
    intro rows logs h
    obtain ⟨c0, o0⟩ := hd
    simp only [List.cons_append] at h ⊢
    rw [processAll] at h
    cases hpt : processTicker day c0 o0 with
    | none => rw [hpt] at h; exact absurd h (by simp)
    | some rl =>
      obtain ⟨r0, l0⟩ := rl
      rw [hpt] at h
      cases hpa : processAll day (tl ++ post) with
      | none => rw [hpa] at h; exact absurd h (by simp)
      | some rs =>
        obtain ⟨rows1, logs1⟩ := rs
        rw [hpa] at h
        simp only [Option.some.injEq, Prod.mk.injEq] at h
        obtain ⟨hr, hl⟩ := h
        obtain ⟨logs2, hp2, hm2⟩ := ih rows1 logs1 hpa
        refine ⟨l0.toList ++ logs2, ?_, by simp [hm2]⟩
        rw [processAll, hpt, hp2]
        simp [hr]

/-- C9 counterexample: the claim's final clause fails in the `day = 0`
configuration (reachable, since the CLI parses `"0"`): a ticker whose body
failed to parse — which the fetcher turns into a successful empty series —
reaches the out-of-bounds access `prices[0]` and the panic aborts the whole
run. -/
theorem per_ticker_failure_aborts_counterexample :
    parseDay (some "0") = 0 ∧
    fetch_etf_kline (Except.ok (200, none)) = Except.ok ([], some 200) ∧
    processAll 0 [("513520", Except.ok ([], some 200))] = none := by
  refine ⟨by decide, rfl, ?_⟩
  norm_num [processAll, processTicker, processPrices, getIdx]

/-- C9 (amended): a transport failure is propagated by the fetcher and turned
into a logged diagnostic naming the ticker and the error; inserting such a
failing ticker anywhere in the run leaves the report rows unchanged and the
run completes; and for every `day ≥ 1` no ticker outcome of any kind aborts
the run. -/
theorem transport_failure_handling (day : Nat) (code e : String)
    (pre post : List (String × Except String (List ℚ × Option Nat)))
    (rows : List Row) (logs : List String)
    (hday : 1 ≤ day)
    (h : processAll day (pre ++ post) = some (rows, logs)) :
    fetch_etf_kline (Except.error e) = Except.error e ∧
    processTicker day code (Except.error e) =
      some (none, some ("Failed to fetch data for " ++ code ++ ": " ++ e ++
        " (No HTTP status available)")) ∧
    (∃ logs2, processAll day (pre ++ (code, Except.error e) :: post) =
        some (rows, logs2) ∧
      ("Failed to fetch data for " ++ code ++ ": " ++ e ++
        " (No HTTP status available)") ∈ logs2) ∧
    (∀ c o, processTicker day c o ≠ none) :=
  ⟨rfl, rfl, processAll_insert_failure day code e pre post rows logs h,
    fun c o => processTicker_ne_none day hday c o⟩

/-- Witness for C9 (amended): a concrete timed-out ticker is logged and the
sibling ticker's row survives. -/
theorem transport_failure_handling_witness :
    ∃ logs2, processAll 2
        ([] ++ ("513350", Except.error "timeout") ::
          [("513520", Except.ok ([100, 90], some 200))]) =
      some ([⟨"513520", -10, 0⟩], logs2) ∧
      ("Failed to fetch data for " ++ "513350" ++ ": " ++ "timeout" ++
        " (No HTTP status available)") ∈ logs2 :=
  (transport_failure_handling 2 "513350" "timeout" []
      [("513520", Except.ok ([100, 90], some 200))] [⟨"513520", -10, 0⟩] []
      (by norm_num)
      (by norm_num [processAll, processTicker, processPrices, getIdx,
        halfDayRate, halfDayIdx, calculate, List.get])).2.2.1
